import Mathlib

/-!
Shallow embedding of the untrusted-event ingestion core of
`src/functions/index.paystack_only.backup.js` (the full file after the
document separator, i.e. the version containing `tsToMillis`,
`timingSafeEqualHex`, the metadata-aware `paystackWebhook` and `trackPing`).

JavaScript numbers that flow through these handlers are either integer
subunit amounts, coordinates passed through opaquely, or NaN produced by
`Number(...)`; no arithmetic is performed on coordinates, so numeric
values are modelled as an integer-or-NaN sum type.  Firestore writes are
modelled as explicit operation lists replayed over a store value, which
also records the order of the writes.
-/

namespace KidobaboHub

/-- A JavaScript numeric value as it appears in these handlers: an integer
(the only numbers the code compares or computes with) or NaN. -/
inductive NumVal where
  | int (n : Int)
  | nan
deriving DecidableEq, Repr

/-- Number.isNaN on a modelled numeric value. -/
def NumVal.isNaN : NumVal → Bool
  | .nan => true
  | .int _ => false

/-- A raw JSON field that the handlers feed to `Number(...)`: absent
(undefined), a JSON integer, or a string that `Number` maps to NaN
(e.g. "abc"). -/
inductive RawNum where
  | absent
  | ofInt (n : Int)
  | nanString
deriving DecidableEq, Repr

/-- `Number(x)` with no fallback, as in `Number(body.lat)` at line 1035:
`Number(undefined)` is NaN. -/
def jsNumber : RawNum → NumVal
  | .absent => .nan
  | .ofInt n => .int n
  | .nanString => .nan

/-- `Number(x || 0)`, as in `Number(data.amount || 0)` at line 296 and
`Number(body.acc || 0)` at line 1037: a falsy field (absent, or the
integer 0) becomes 0, while a non-numeric string still becomes NaN. -/
def jsNumberOrZero : RawNum → NumVal
  | .absent => .int 0
  | .ofInt n => .int n
  | .nanString => .nan

/-- JS `String.prototype.toLowerCase` on one character, for the ASCII
range these handlers compare against. -/
def jsLowerChar (c : Char) : Char :=
  if 'A' ≤ c ∧ c ≤ 'Z' then Char.ofNat (c.toNat + 32) else c

/-- JS `.toLowerCase()`. -/
def jsToLower (s : String) : String :=
  String.mk (s.data.map jsLowerChar)

/-- A character JS `.trim()` removes. -/
def jsIsSpace (c : Char) : Bool :=
  c = ' ' ∨ c = '\t' ∨ c = '\n' ∨ c = '\r'

/-- JS `.trim()`: strip leading and trailing whitespace. -/
def jsTrim (s : String) : String :=
  String.mk (((s.data.dropWhile jsIsSpace).reverse.dropWhile jsIsSpace).reverse)

/-- JS `.slice(0, n)` on a string. -/
def jsSlice (s : String) (n : Nat) : String :=
  String.mk (s.data.take n)

/-- `String(email || "").trim().toLowerCase()` — `normalizeEmail` at
lines 226-228. -/
def normalizeEmail (email : Option String) : String :=
  jsToLower (jsTrim (email.getD ""))

/-- `x || null` applied to an optional string field, as in
`data.reference || null` at line 294: an empty string collapses to null. -/
def jsOrNull : Option String → Option String
  | some s => if s = "" then none else some s
  | none => none

/-- Value of a hexadecimal digit, used to model Node's
`Buffer.from(s, "hex")`. -/
def hexVal (c : Char) : Option Nat :=
  if '0' ≤ c ∧ c ≤ '9' then some (c.toNat - '0'.toNat)
  else if 'a' ≤ c ∧ c ≤ 'f' then some (c.toNat - 'a'.toNat + 10)
  else if 'A' ≤ c ∧ c ≤ 'F' then some (c.toNat - 'A'.toNat + 10)
  else none

/-- Node `Buffer.from(s, "hex")`: decode hex digit pairs, stopping at the
first character pair that is not valid hex (a trailing odd digit is
dropped). -/
def hexDecode : List Char → List Nat
  | c1 :: c2 :: rest =>
    match hexVal c1, hexVal c2 with
    | some h, some l => (16 * h + l) :: hexDecode rest
    | _, _ => []
  | _ => []

/-- `timingSafeEqualHex` at lines 230-239: hex-decode both strings, fail
if the byte lengths differ, otherwise `crypto.timingSafeEqual`, i.e. byte
equality computed over every byte. -/
def timingSafeEqualHex (a b : String) : Bool :=
  let aa := hexDecode a.data
  let bb := hexDecode b.data
  aa.length = bb.length && aa == bb

/-- Comparison-step count of `crypto.timingSafeEqual` on two buffers of
equal length: every byte is visited, so the count is the length and is
independent of the contents (0 models the length-mismatch early return
of `timingSafeEqualHex`, which depends only on the lengths). -/
def timingSafeEqualSteps (aa bb : List Nat) : Nat :=
  if aa.length = bb.length then aa.length else 0

/-- Character-comparison count of the engine's built-in string equality
scan: compare position by position and stop at the first mismatch or at
the end of the shorter string. -/
def charScanSteps : List Char → List Char → Nat
  | a :: as, b :: bs => if a = b then 1 + charScanSteps as bs else 1
  | _, _ => 0

/-- Comparison-step model of evaluating `x !== y` on two strings via the
built-in short-circuit content scan. -/
def stringEqSteps (a b : String) : Nat :=
  charScanSteps a.data b.data

/-! ## Payment webhook: classifier, projection and handler
(lines 266-370 of the source). -/

/-- `AMT_MONTHLY` (line 313). -/
def AMT_MONTHLY : Int := 100 * 100

/-- `AMT_YEARLY` (line 314). -/
def AMT_YEARLY : Int := 900 * 100

/-- `AMT_LIFETIME` (line 315). -/
def AMT_LIFETIME : Int := 5000 * 100

/-- `AMT_COMMUNITY` (line 316). -/
def AMT_COMMUNITY : Int := 500

/-- The four recognized metadata plan tags (line 325). -/
def recognizedPlans : List String := ["monthly", "yearly", "lifetime", "community"]

/-- Lines 319-334: `metaPlan = String(data.metadata?.plan || "").trim().toLowerCase()`;
if `metaPlan` is truthy (non-empty), use it only when it is one of the
four recognized tags (otherwise plan stays "pending"); only when
`metaPlan` is empty fall back to matching the amount against the price
table.  Returns (plan, days), days = none modelling `days = null`. -/
def classifyPlan (metadataPlan : Option String) (amount : NumVal) :
    String × Option Nat :=
  let metaPlan := jsToLower (jsTrim (metadataPlan.getD ""))
  if metaPlan ≠ "" then
    if recognizedPlans.contains metaPlan then
      (metaPlan,
        if metaPlan = "monthly" then some 30
        else if metaPlan = "yearly" then some 365
        else none)
    else ("pending", none)
  else
    if amount = .int AMT_MONTHLY then ("monthly", some 30)
    else if amount = .int AMT_YEARLY then ("yearly", some 365)
    else if amount = .int AMT_LIFETIME then ("lifetime", none)
    else if amount = .int AMT_COMMUNITY then ("community", none)
    else ("pending", none)

/-- The `updates` object written to the user document (lines 345-359).
`updatedAt` models the server timestamp as the current time in
milliseconds; `subscriptionEndsAt = none` models the explicit null. -/
structure SubUpdates where
  plan : String
  status : String
  lastPaymentRef : Option String
  updatedAt : Nat
  trialEndsAt : Option Nat
  subscriptionEndsAt : Option Nat
deriving DecidableEq, Repr

/-- Build the `updates` object: `status` is "inactive" exactly when the
plan is "pending" (line 347); `if (days)` is truthy only for a non-null,
non-zero day count, in which case expiry is now plus `days` in
milliseconds (lines 353-359), otherwise `subscriptionEndsAt` is set to
null. -/
def mkUpdates (plan : String) (days : Option Nat) (reference : Option String)
    (now : Nat) : SubUpdates :=
  { plan := plan
    status := if plan = "pending" then "inactive" else "active"
    lastPaymentRef := reference
    updatedAt := now
    trialEndsAt := none
    subscriptionEndsAt :=
      match days with
      | some d => if d ≠ 0 then some (now + d * 24 * 60 * 60 * 1000) else none
      | none => none }

/-- A user document in the `users` collection: the fields the webhook
writes, plus `email` (the lookup key) and `name` standing for the fields
a merge write preserves. -/
structure UserDoc where
  email : String
  name : String
  plan : String
  status : String
  lastPaymentRef : Option String
  updatedAt : Nat
  trialEndsAt : Option Nat
  subscriptionEndsAt : Option Nat
deriving DecidableEq, Repr

/-- `userRef.set(updates, merge: true)` (line 361): overwrite exactly the
fields of `updates`, preserving `email` and `name`. -/
def applyUpdatesToUser (u : UserDoc) (upd : SubUpdates) : UserDoc :=
  { u with
    plan := upd.plan
    status := upd.status
    lastPaymentRef := upd.lastPaymentRef
    updatedAt := upd.updatedAt
    trialEndsAt := upd.trialEndsAt
    subscriptionEndsAt := upd.subscriptionEndsAt }

/-- A `paystack_events` ledger entry (lines 305-309). -/
structure ProcessedReference where
  createdAt : Nat
  email : String
  amount : NumVal
deriving DecidableEq, Repr

/-- The slice of Firestore the webhook touches: the idempotency ledger
keyed by reference, and the `users` collection in query order (the
`limit(1)` query returns the first matching document). -/
structure Store where
  paystackEvents : List (String × ProcessedReference)
  users : List UserDoc
deriving DecidableEq, Repr

/-- A durable write performed by the webhook, in program order. -/
inductive WebhookOp where
  | createProcessedRef (reference : String) (entry : ProcessedReference)
  | setUserMerge (email : String) (upd : SubUpdates)
deriving DecidableEq, Repr

/-- Whether an operation is the ledger-record creation. -/
def WebhookOp.isCreate : WebhookOp → Bool
  | .createProcessedRef _ _ => true
  | _ => false

/-- Whether an operation is the subscription-state merge write. -/
def WebhookOp.isUserSet : WebhookOp → Bool
  | .setUserMerge _ _ => true
  | _ => false

/-- Update the first list element satisfying the predicate (a write to
the single document returned by a `limit(1)` query). -/
def updateFirst {α : Type} (p : α → Bool) (f : α → α) : List α → List α
  | [] => []
  | x :: xs => if p x then f x :: xs else x :: updateFirst p f xs

/-- Replay one webhook write against the store. -/
def applyWebhookOp (s : Store) : WebhookOp → Store
  | .createProcessedRef r entry =>
      { s with paystackEvents := s.paystackEvents ++ [(r, entry)] }
  | .setUserMerge email upd =>
      { s with users := updateFirst (fun u => u.email == email)
                          (fun u => applyUpdatesToUser u upd) s.users }

/-- Replay a webhook write list in order. -/
def applyWebhookOps (s : Store) (ops : List WebhookOp) : Store :=
  ops.foldl applyWebhookOp s

/-- The webhook request as the handler sees it: the HTTP method, the
signature header, the raw body bytes (with the JSON re-serialization
fallback of line 282), and the parsed JSON body fields the handler
reads. -/
structure WebhookRequest where
  method : String
  signature : Option String
  rawBody : Option (List Nat)
  jsonBodyBytes : List Nat
  eventType : String
  reference : Option String
  customerEmail : Option String
  amount : RawNum
  metadataPlan : Option String
deriving Repr

/-- The webhook's terminal responses (lines 273-364). -/
inductive WebhookResult where
  | methodNotAllowed
  | missingSecret
  | missingSignature
  | invalidSignature
  | ignored
  | noEmail
  | duplicate
  | noMatchingUser
  | ok
deriving DecidableEq, Repr

/-- HTTP status code of each webhook response. -/
def webhookStatus : WebhookResult → Nat
  | .methodNotAllowed => 405
  | .missingSecret => 500
  | .missingSignature => 400
  | .invalidSignature => 400
  | _ => 200

/-- Lines 337-361: find the user by email (`limit(1)` → first match);
none → log and 200 "No matching user"; otherwise build `updates` from
the classified plan and merge-write it. -/
def projectPayment (reference : Option String) (email : String)
    (amount : NumVal) (metadataPlan : Option String) (store : Store)
    (now : Nat) : WebhookResult × List WebhookOp :=
  let pd := classifyPlan metadataPlan amount
  match store.users.find? (fun u => u.email == email) with
  | none => (.noMatchingUser, [])
  | some _ => (.ok, [WebhookOp.setUserMerge email (mkUpdates pd.1 pd.2 reference now)])

/-- Lines 301-334 continued: the idempotency gate.  When a reference is
present, a `get` existence check (line 303) followed, only if absent, by
a separate `set` creating the ledger entry (lines 305-309), then the
projection; when the reference is null the ledger is bypassed. -/
def webhookAfterGates (reference : Option String) (email : String)
    (amount : NumVal) (metadataPlan : Option String) (store : Store)
    (now : Nat) : WebhookResult × List WebhookOp :=
  match reference with
  | some r =>
    if store.paystackEvents.any (fun p => p.1 == r) then (.duplicate, [])
    else
      let entry : ProcessedReference :=
        { createdAt := now, email := email, amount := amount }
      let pr := projectPayment (some r) email amount metadataPlan store now
      (pr.1, WebhookOp.createProcessedRef r entry :: pr.2)
  | none => projectPayment none email amount metadataPlan store now

/-- `paystackWebhook` (lines 266-370).  `hmacHex` abstracts
`crypto.createHmac("sha512", secret).update(raw).digest("hex")`;
`secretPresent` models `PAYSTACK_SECRET_KEY.value()` being non-empty.
Gates in source order: method, secret, signature header, timing-safe
signature comparison, event type, email presence; then the ledger gate
and projection. -/
def paystackWebhook (hmacHex : List Nat → String) (secretPresent : Bool)
    (req : WebhookRequest) (store : Store) (now : Nat) :
    WebhookResult × List WebhookOp :=
  if req.method ≠ "POST" then (.methodNotAllowed, [])
  else if ¬ secretPresent then (.missingSecret, [])
  else
    match req.signature with
    | none => (.missingSignature, [])
    | some sig =>
      let raw := req.rawBody.getD req.jsonBodyBytes
      let computedHash := hmacHex raw
      if ¬ timingSafeEqualHex computedHash sig then (.invalidSignature, [])
      else if req.eventType ≠ "charge.success" then (.ignored, [])
      else
        let email := normalizeEmail req.customerEmail
        let amount := jsNumberOrZero req.amount
        if email = "" then (.noEmail, [])
        else webhookAfterGates (jsOrNull req.reference) email amount
               req.metadataPlan store now

/-! ## Location tracking: sessions and the ping endpoint
(lines 216-224 and 1025-1103 of the source). -/

/-- The shapes a stored `expiresAt` value can take, as discriminated by
`tsToMillis` (lines 216-224): absent/null, a Timestamp exposing
`toMillis`, a plain object with a `seconds` field, one with a `_seconds`
field, or anything else. -/
inductive TSValue where
  | absent
  | withToMillis (m : Nat)
  | withSeconds (s : Nat)
  | withUnderscoreSeconds (s : Nat)
  | unrecognized
deriving DecidableEq, Repr

/-- `tsToMillis` (lines 216-224): null → 0; an object with a `toMillis`
method → its value; else a truthy `seconds` / `_seconds` field times
1000; else 0.  A zero `seconds` field is falsy and falls through to 0. -/
def tsToMillis : TSValue → Nat
  | .absent => 0
  | .withToMillis m => m
  | .withSeconds s => if s ≠ 0 then s * 1000 else 0
  | .withUnderscoreSeconds s => if s ≠ 0 then s * 1000 else 0
  | .unrecognized => 0

/-- A `trackingSessions` document (lines 1006-1017). -/
structure SessionDoc where
  sessionId : String
  token : String
  orgId : String
  studentId : String
  isActive : Bool
  expiresAt : TSValue
deriving DecidableEq, Repr

/-- A location-history record appended under the student (lines
1073-1084). -/
structure LocRecord where
  sid : String
  orgId : String
  studentId : String
  lat : NumVal
  lng : NumVal
  acc : NumVal
  createdAt : Nat
  ua : String
deriving DecidableEq, Repr

/-- The denormalized `lastLocation` snapshot merged onto the student
document (lines 1086-1097). -/
structure LastLocation where
  lat : NumVal
  lng : NumVal
  acc : NumVal
  sid : String
  updatedAt : Nat
deriving DecidableEq, Repr

/-- A student document, reduced to its identity and the snapshot field
the ping path writes. -/
structure StudentDoc where
  orgId : String
  studentId : String
  lastLocation : Option LastLocation
deriving DecidableEq, Repr

/-- The slice of Firestore the ping path touches: the collection-group
of tracking sessions in query order, the location-history records in
append order, and the student documents. -/
structure TrackStore where
  sessions : List SessionDoc
  locations : List LocRecord
  students : List StudentDoc
deriving DecidableEq, Repr

/-- A durable write performed by the ping path, in program order. -/
inductive TrackOp where
  | addLocation (l : LocRecord)
  | mergeLastLocation (orgId : String) (studentId : String) (l : LastLocation)
deriving DecidableEq, Repr

/-- Replay one ping write against the store. -/
def applyTrackOp (s : TrackStore) : TrackOp → TrackStore
  | .addLocation l => { s with locations := s.locations ++ [l] }
  | .mergeLastLocation o st l =>
      { s with students := updateFirst (fun d => d.orgId == o && d.studentId == st)
                             (fun d => { d with lastLocation := some l }) s.students }

/-- Replay a ping write list in order. -/
def applyTrackOps (s : TrackStore) (ops : List TrackOp) : TrackStore :=
  ops.foldl applyTrackOp s

/-- The ping request body (lines 1032-1037). -/
structure PingBody where
  sid : Option String
  tok : Option String
  lat : RawNum
  lng : RawNum
  acc : RawNum
deriving Repr

/-- The ping endpoint's terminal responses (lines 1027-1099). -/
inductive PingResult where
  | methodNotAllowed
  | missingSidTok
  | invalidLatLng
  | sessionNotFound
  | sessionInactive
  | badToken
  | sessionExpired
  | okPing
deriving DecidableEq, Repr

/-- HTTP status code of each ping response. -/
def pingStatus : PingResult → Nat
  | .methodNotAllowed => 405
  | .missingSidTok => 400
  | .invalidLatLng => 400
  | .sessionNotFound => 404
  | .sessionInactive => 403
  | .badToken => 403
  | .sessionExpired => 403
  | .okPing => 200

/-- `trackPing` (lines 1025-1103).  Gates in source order: method,
`sid`/`tok` presence after trim, NaN check on `lat`/`lng`, session
lookup (collection-group query, `limit(1)` → first match), active flag,
token equality via the built-in `!==` (line 1060), expiry guard
`if (exp && Date.now() > exp)` (line 1065); on success the history
append (line 1084) precedes the snapshot merge (lines 1086-1097). -/
def trackPing (method : String) (body : PingBody) (userAgent : String)
    (store : TrackStore) (now : Nat) : PingResult × List TrackOp :=
  if method ≠ "POST" then (.methodNotAllowed, [])
  else
    let sid := jsTrim (body.sid.getD "")
    let tok := jsTrim (body.tok.getD "")
    let lat := jsNumber body.lat
    let lng := jsNumber body.lng
    let acc := jsNumberOrZero body.acc
    if sid = "" ∨ tok = "" then (.missingSidTok, [])
    else if lat.isNaN || lng.isNaN then (.invalidLatLng, [])
    else
      match store.sessions.find? (fun s => s.sessionId == sid) with
      | none => (.sessionNotFound, [])
      | some sess =>
        if ¬ sess.isActive then (.sessionInactive, [])
        else if sess.token ≠ tok then (.badToken, [])
        else
          let exp := tsToMillis sess.expiresAt
          if exp ≠ 0 ∧ now > exp then (.sessionExpired, [])
          else
            (.okPing,
             [TrackOp.addLocation
                { sid := sid, orgId := sess.orgId, studentId := sess.studentId,
                  lat := lat, lng := lng, acc := acc, createdAt := now,
                  ua := jsSlice userAgent 180 },
              TrackOp.mergeLastLocation sess.orgId sess.studentId
                { lat := lat, lng := lng, acc := acc, sid := sid,
                  updatedAt := now }])

/-- Comparison-step model for the token check `String(sess.token || "") !== tok`
at line 1060: the stored token scanned against the supplied one by the
built-in short-circuit equality. -/
def pingTokenCompareSteps (sess : SessionDoc) (tok : String) : Nat :=
  stringEqSteps sess.token tok

/-! ## The ledger claim as executed: two storage round-trips
(lines 302-309).  The code performs `refDoc.get()` and tests
`exists.exists`, and only then a separate `refDoc.set(...)`.  To examine
this under concurrent duplicate delivery, each delivery is a two-step
process (check, then write) over a shared ledger, and a schedule
interleaves the steps of two deliveries of the same reference. -/

/-- Program counter of one delivery running the ledger claim: `0` about
to run the existence check, `1` check passed and about to write, `2`
finished. -/
structure ClaimProc where
  pc : Nat
  accepted : Option Bool
deriving DecidableEq, Repr

/-- A delivery that has not started. -/
def ClaimProc.start : ClaimProc := { pc := 0, accepted := none }

/-- One storage round-trip of the claim protocol for reference `r`:
at pc 0 the `get` existence check (duplicate and stop, or proceed); at
pc 1 the separate `set` creating the ledger record and accepting. -/
def claimStep (ledger : List String) (p : ClaimProc) (r : String) :
    List String × ClaimProc :=
  match p.pc with
  | 0 =>
    if ledger.contains r then (ledger, { pc := 2, accepted := some false })
    else (ledger, { pc := 1, accepted := none })
  | 1 => (ledger ++ [r], { pc := 2, accepted := some true })
  | _ => (ledger, p)

/-- Run two concurrent deliveries of the same reference `r` under a
schedule: `true` steps delivery A, `false` steps delivery B. -/
def runClaims (r : String) (sched : List Bool) :
    List String × ClaimProc × ClaimProc :=
  sched.foldl
    (fun st turn =>
      if turn then
        let next := claimStep st.1 st.2.1 r
        (next.1, next.2, st.2.2)
      else
        let next := claimStep st.1 st.2.2 r
        (next.1, st.2.1, next.2))
    ([], ClaimProc.start, ClaimProc.start)

/-! ## Helper lemmas -/

/-- The `updates` object always couples status and plan. -/
theorem mkUpdates_status_iff (plan : String) (days : Option Nat)
    (reference : Option String) (now : Nat) :
    (mkUpdates plan days reference now).status = "active" ↔
      (mkUpdates plan days reference now).plan ≠ "pending" := by
  by_cases h : plan = "pending" <;> simp [mkUpdates, h]

/-- Reduction of the projection when no user matches. -/
theorem projectPayment_none (reference : Option String) (email : String)
    (amount : NumVal) (metadataPlan : Option String) (store : Store) (now : Nat)
    (h : store.users.find? (fun u => u.email == email) = none) :
    projectPayment reference email amount metadataPlan store now =
      (.noMatchingUser, []) := by
  simp [projectPayment, h]

/-- Reduction of the projection when a user matches. -/
theorem projectPayment_found (reference : Option String) (email : String)
    (amount : NumVal) (metadataPlan : Option String) (store : Store) (now : Nat)
    (u : UserDoc) (h : store.users.find? (fun x => x.email == email) = some u) :
    projectPayment reference email amount metadataPlan store now =
      (.ok, [WebhookOp.setUserMerge email
        (mkUpdates (classifyPlan metadataPlan amount).1
          (classifyPlan metadataPlan amount).2 reference now)]) := by
  simp [projectPayment, h]

/-- Reduction of the ledger gate on a reference already present. -/
theorem webhookAfterGates_dup (r : String) (email : String) (amount : NumVal)
    (metadataPlan : Option String) (store : Store) (now : Nat)
    (h : store.paystackEvents.any (fun p => p.1 == r) = true) :
    webhookAfterGates (some r) email amount metadataPlan store now =
      (.duplicate, []) := by
  simp [webhookAfterGates, h]

/-- Reduction of the ledger gate on a fresh reference. -/
theorem webhookAfterGates_fresh (r : String) (email : String) (amount : NumVal)
    (metadataPlan : Option String) (store : Store) (now : Nat)
    (h : store.paystackEvents.any (fun p => p.1 == r) = false) :
    webhookAfterGates (some r) email amount metadataPlan store now =
      ((projectPayment (some r) email amount metadataPlan store now).1,
       WebhookOp.createProcessedRef r
           { createdAt := now, email := email, amount := amount } ::
         (projectPayment (some r) email amount metadataPlan store now).2) := by
  simp [webhookAfterGates, h]

/-- With every authenticity gate passed, the webhook reduces to the
ledger gate plus projection. -/
theorem paystackWebhook_gates_eq (hmacHex : List Nat → String)
    (req : WebhookRequest) (store : Store) (now : Nat) (sig : String)
    (hm : req.method = "POST")
    (hs : req.signature = some sig)
    (hv : timingSafeEqualHex (hmacHex (req.rawBody.getD req.jsonBodyBytes)) sig = true)
    (he : req.eventType = "charge.success")
    (hem : normalizeEmail req.customerEmail ≠ "") :
    paystackWebhook hmacHex true req store now =
      webhookAfterGates (jsOrNull req.reference) (normalizeEmail req.customerEmail)
        (jsNumberOrZero req.amount) req.metadataPlan store now := by
  simp [paystackWebhook, hm, hs, hv, he, hem]

/-- Every write list the webhook can emit, by cases on the paths: empty,
a lone projection write, a lone ledger creation, or a ledger creation
followed by the projection write.  Any projection write carries an
`updates` object built by `mkUpdates`. -/
theorem paystackWebhook_ops_cases (hmacHex : List Nat → String)
    (secretPresent : Bool) (req : WebhookRequest) (store : Store) (now : Nat) :
    (paystackWebhook hmacHex secretPresent req store now).2 = [] ∨
    (∃ e p d rf, (paystackWebhook hmacHex secretPresent req store now).2 =
      [WebhookOp.setUserMerge e (mkUpdates p d rf now)]) ∨
    (∃ r entry, (paystackWebhook hmacHex secretPresent req store now).2 =
      [WebhookOp.createProcessedRef r entry]) ∨
    (∃ r entry e p d rf, (paystackWebhook hmacHex secretPresent req store now).2 =
      [WebhookOp.createProcessedRef r entry,
       WebhookOp.setUserMerge e (mkUpdates p d rf now)]) := by
  have hproj : ∀ reference email amount metadataPlan,
      (projectPayment reference email amount metadataPlan store now).2 = [] ∨
      (projectPayment reference email amount metadataPlan store now).2 =
        [WebhookOp.setUserMerge email
          (mkUpdates (classifyPlan metadataPlan amount).1
            (classifyPlan metadataPlan amount).2 reference now)] := by
    intro reference email amount metadataPlan
    rcases h : store.users.find? (fun u => u.email == email) with _ | u
    · exact Or.inl (by simp [projectPayment, h])
    · exact Or.inr (by simp [projectPayment, h])
  have hafter : ∀ reference email amount metadataPlan,
      (webhookAfterGates reference email amount metadataPlan store now).2 = [] ∨
      (∃ e p d rf, (webhookAfterGates reference email amount metadataPlan store now).2 =
        [WebhookOp.setUserMerge e (mkUpdates p d rf now)]) ∨
      (∃ r entry, (webhookAfterGates reference email amount metadataPlan store now).2 =
        [WebhookOp.createProcessedRef r entry]) ∨
      (∃ r entry e p d rf,
        (webhookAfterGates reference email amount metadataPlan store now).2 =
          [WebhookOp.createProcessedRef r entry,
           WebhookOp.setUserMerge e (mkUpdates p d rf now)]) := by
    intro reference email amount metadataPlan
    rcases reference with _ | r
    · rcases hproj none email amount metadataPlan with h | h
      · exact Or.inl (by simpa [webhookAfterGates] using h)
      · refine Or.inr (Or.inl ⟨email, (classifyPlan metadataPlan amount).1,
          (classifyPlan metadataPlan amount).2, none, ?_⟩)
        simpa [webhookAfterGates] using h
    · by_cases hd : store.paystackEvents.any (fun p => p.1 == r) = true
      · exact Or.inl (by simp [webhookAfterGates, hd])
      · rcases hproj (some r) email amount metadataPlan with h | h
        · refine Or.inr (Or.inr (Or.inl
            ⟨r, { createdAt := now, email := email, amount := amount }, ?_⟩))
          simp only [webhookAfterGates, if_neg hd]
          simp [h]
        · refine Or.inr (Or.inr (Or.inr
            ⟨r, { createdAt := now, email := email, amount := amount }, email,
             (classifyPlan metadataPlan amount).1, (classifyPlan metadataPlan amount).2,
             some r, ?_⟩))
          simp only [webhookAfterGates, if_neg hd]
          simp [h]
  by_cases hm : req.method = "POST"
  · by_cases hsec : secretPresent = true
    · rcases hsig : req.signature with _ | sig
      · exact Or.inl (by simp [paystackWebhook, hm, hsec, hsig])
      · by_cases hv : timingSafeEqualHex
            (hmacHex (req.rawBody.getD req.jsonBodyBytes)) sig = true
        · by_cases he : req.eventType = "charge.success"
          · by_cases hem : normalizeEmail req.customerEmail = ""
            · exact Or.inl (by simp [paystackWebhook, hm, hsec, hsig, hv, he, hem])
            · have heq : paystackWebhook hmacHex secretPresent req store now =
                  webhookAfterGates (jsOrNull req.reference)
                    (normalizeEmail req.customerEmail)
                    (jsNumberOrZero req.amount) req.metadataPlan store now := by
                simp [paystackWebhook, hm, hsec, hsig, hv, he, hem]
              rw [heq]
              exact hafter _ _ _ _
          · exact Or.inl (by simp [paystackWebhook, hm, hsec, hsig, hv, he])
        · exact Or.inl (by simp [paystackWebhook, hm, hsec, hsig, hv])
    · exact Or.inl (by simp [paystackWebhook, hm, hsec])
  · exact Or.inl (by simp [paystackWebhook, hm])

/-- With method, field, lookup, active and token gates passed, the ping
handler reduces to the expiry guard. -/
theorem trackPing_gates_eq (body : PingBody) (ua : String) (store : TrackStore)
    (now : Nat) (sess : SessionDoc)
    (hsid : jsTrim (body.sid.getD "") ≠ "")
    (htok : jsTrim (body.tok.getD "") ≠ "")
    (hlat : (jsNumber body.lat).isNaN = false)
    (hlng : (jsNumber body.lng).isNaN = false)
    (hfind : store.sessions.find?
      (fun s => s.sessionId == jsTrim (body.sid.getD "")) = some sess)
    (hact : sess.isActive = true)
    (htokeq : sess.token = jsTrim (body.tok.getD "")) :
    trackPing "POST" body ua store now =
      if tsToMillis sess.expiresAt ≠ 0 ∧ now > tsToMillis sess.expiresAt then
        (.sessionExpired, [])
      else
        (.okPing,
         [TrackOp.addLocation
            { sid := jsTrim (body.sid.getD ""), orgId := sess.orgId,
              studentId := sess.studentId, lat := jsNumber body.lat,
              lng := jsNumber body.lng, acc := jsNumberOrZero body.acc,
              createdAt := now, ua := jsSlice ua 180 },
          TrackOp.mergeLastLocation sess.orgId sess.studentId
            { lat := jsNumber body.lat, lng := jsNumber body.lng,
              acc := jsNumberOrZero body.acc, sid := jsTrim (body.sid.getD ""),
              updatedAt := now }]) := by
  simp [trackPing, hsid, htok, hlat, hlng, hfind, hact, htokeq]

/-! ## Claim theorems -/

/-- C3 counterexample: the claim asserts that a declared-but-unrecognized
metadata plan name falls back to amount matching; with metadata plan
"gold" and the exact monthly price, the classifier yields pending with
no entitlement, not the amount-matched monthly/30 result. -/
theorem classifier_meta_fallback_counterexample :
    classifyPlan (some "gold") (.int AMT_MONTHLY) = ("pending", none) ∧
    classifyPlan none (.int AMT_MONTHLY) = ("monthly", some 30) ∧
    classifyPlan (some "gold") (.int AMT_MONTHLY) ≠
      classifyPlan none (.int AMT_MONTHLY) := by
  decide

/-- C3 (amended): a recognized metadata plan tag wins over the amount
with duration monthly→30, yearly→365, lifetime/community→none; a
declared-but-unrecognized metadata plan name yields pending with no
amount fallback; only an absent or empty metadata plan is classified by
the price table, where an unknown amount (or NaN) yields pending. -/
theorem classifier_precedence :
    (∀ a : NumVal, classifyPlan (some "monthly") a = ("monthly", some 30)) ∧
    (∀ a : NumVal, classifyPlan (some "yearly") a = ("yearly", some 365)) ∧
    (∀ a : NumVal, classifyPlan (some "lifetime") a = ("lifetime", none)) ∧
    (∀ a : NumVal, classifyPlan (some "community") a = ("community", none)) ∧
    (∀ (a : NumVal) (s : String), jsToLower (jsTrim s) ≠ "" →
      recognizedPlans.contains (jsToLower (jsTrim s)) = false →
      classifyPlan (some s) a = ("pending", none)) ∧
    classifyPlan none (.int AMT_MONTHLY) = ("monthly", some 30) ∧
    classifyPlan none (.int AMT_YEARLY) = ("yearly", some 365) ∧
    classifyPlan none (.int AMT_LIFETIME) = ("lifetime", none) ∧
    classifyPlan none (.int AMT_COMMUNITY) = ("community", none) ∧
    (∀ n : Int, n ≠ AMT_MONTHLY → n ≠ AMT_YEARLY → n ≠ AMT_LIFETIME →
      n ≠ AMT_COMMUNITY → classifyPlan none (.int n) = ("pending", none)) ∧
    classifyPlan none .nan = ("pending", none) := by
  refine ⟨fun a => rfl, fun a => rfl, fun a => rfl, fun a => rfl, ?_,
    by decide, by decide, by decide, by decide, ?_, by decide⟩
  · intro a s h1 h2
    have h2m : jsToLower (jsTrim s) ∉ recognizedPlans := by simpa using h2
    simp [classifyPlan, h1, h2m]
  · intro n h1 h2 h3 h4
    simp [classifyPlan, show jsToLower (jsTrim "") = "" from rfl,
      h1, h2, h3, h4]

/-- C3 witness: the amended theorem applied at concrete inputs. -/
theorem classifier_precedence_witness :
    classifyPlan (some "gold") .nan = ("pending", none) ∧
    classifyPlan none (.int 777) = ("pending", none) :=
  ⟨classifier_precedence.2.2.2.2.1 .nan "gold" (by decide) (by decide),
   classifier_precedence.2.2.2.2.2.2.2.2.2.1 777 (by decide) (by decide)
     (by decide) (by decide)⟩

/-- C7: every subscription-state write the webhook emits satisfies the
invariant that status is "active" exactly when plan is not "pending". -/
theorem subscription_status_invariant (hmacHex : List Nat → String)
    (secretPresent : Bool) (req : WebhookRequest) (store : Store) (now : Nat)
    (email : String) (upd : SubUpdates)
    (hop : WebhookOp.setUserMerge email upd ∈
      (paystackWebhook hmacHex secretPresent req store now).2) :
    upd.status = "active" ↔ upd.plan ≠ "pending" := by
  rcases paystackWebhook_ops_cases hmacHex secretPresent req store now with
    h | ⟨e, p, d, rf, h⟩ | ⟨r, entry, h⟩ | ⟨r, entry, e, p, d, rf, h⟩
  · rw [h] at hop
    simp at hop
  · rw [h] at hop
    simp only [List.mem_singleton] at hop
    injection hop with h1 h2
    subst h2
    exact mkUpdates_status_iff p d rf now
  · rw [h] at hop
    simp only [List.mem_singleton] at hop
    exact absurd hop (by simp)
  · rw [h] at hop
    simp only [List.mem_cons, List.not_mem_nil, or_false] at hop
    rcases hop with hop | hop
    · exact absurd hop (by simp)
    · injection hop with h1 h2
      subst h2
      exact mkUpdates_status_iff p d rf now

/-! ## Concrete fixtures for witnesses and counterexamples -/

/-- A keyed-hash oracle that returns the hex digest "ab" for every byte
sequence; any concrete function works, since the handler only compares
its output to the supplied signature. -/
def demoHmac : List Nat → String := fun _ => "ab"

/-- A stored user with a trial and a live subscription expiry. -/
def demoUser : UserDoc :=
  { email := "a@x.com", name := "Ada", plan := "free", status := "inactive",
    lastPaymentRef := none, updatedAt := 0, trialEndsAt := some 7,
    subscriptionEndsAt := some 999 }

/-- A store with an empty ledger and one user. -/
def demoStore : Store := { paystackEvents := [], users := [demoUser] }

/-- A fully valid charge.success webhook request for the monthly price. -/
def demoReq : WebhookRequest :=
  { method := "POST", signature := some "ab", rawBody := some [1, 2],
    jsonBodyBytes := [], eventType := "charge.success", reference := some "R1",
    customerEmail := some "A@x.com ", amount := .ofInt 10000,
    metadataPlan := none }

/-- An active tracking session with token "aaaaaaaa" expiring at 1000. -/
def demoSess : SessionDoc :=
  { sessionId := "S1", token := "aaaaaaaa", orgId := "org1", studentId := "stu1",
    isActive := true, expiresAt := .withToMillis 1000 }

/-- A track store holding the demo session and its student. -/
def demoTrackStore : TrackStore :=
  { sessions := [demoSess], locations := [],
    students := [{ orgId := "org1", studentId := "stu1", lastLocation := none }] }

/-- A well-formed ping for the demo session with the correct token. -/
def demoPing : PingBody :=
  { sid := some "S1", tok := some "aaaaaaaa", lat := .ofInt 1, lng := .ofInt 2,
    acc := .ofInt 3 }

/-- The demo ping with a wrong token differing in the first character. -/
def demoPingWrongTokFirst : PingBody :=
  { sid := some "S1", tok := some "baaaaaaa", lat := .ofInt 1, lng := .ofInt 2,
    acc := .ofInt 3 }

/-- The demo ping with a wrong token differing in the last character. -/
def demoPingWrongTokLast : PingBody :=
  { sid := some "S1", tok := some "aaaaaaab", lat := .ofInt 1, lng := .ofInt 2,
    acc := .ofInt 3 }

/-- C7 witness: the invariant theorem applied to the write emitted by a
concrete accepted monthly payment. -/
theorem subscription_status_invariant_witness :
    (mkUpdates "monthly" (some 30) (some "R1") 5).status = "active" ↔
      (mkUpdates "monthly" (some 30) (some "R1") 5).plan ≠ "pending" :=
  subscription_status_invariant demoHmac true demoReq demoStore 5 "a@x.com"
    (mkUpdates "monthly" (some 30) (some "R1") 5) (by decide)

/-- C2 counterexample: the claim asserts the ledger claim is a single
atomic create-if-absent, so at most one of two concurrent duplicate
deliveries is accepted; but the code performs a separate `get` existence
check then a separate `set`, and the interleaving check-A, check-B,
write-A, write-B accepts both deliveries (and double-writes the ledger
document). -/
theorem ledger_claim_race_counterexample :
    (runClaims "R1" [true, false, true, false]).2.1.accepted = some true ∧
    (runClaims "R1" [true, false, true, false]).2.2.accepted = some true ∧
    (runClaims "R1" [true, false, true, false]).1 = ["R1", "R1"] := by
  decide

/-- C2 (amended): the ledger claim is implemented as a separate existence
check followed by a separate write; run to completion without
interleaving, the first delivery is accepted and the second observes the
record and returns duplicate, but interleaving two concurrent deliveries
of the same reference can accept both. -/
theorem ledger_claim_check_then_write (r : String) :
    (runClaims r [true, true, false, false]).2.1.accepted = some true ∧
    (runClaims r [true, true, false, false]).2.2.accepted = some false ∧
    (runClaims r [true, true, false, false]).1 = [r] ∧
    (runClaims r [true, false, true, false]).2.1.accepted = some true ∧
    (runClaims r [true, false, true, false]).2.2.accepted = some true := by
  simp [runClaims, claimStep, ClaimProc.start]

/-- C5 counterexample: the claim asserts the ping token comparison is
constant-time with no timing leak across equal-length inputs; the code
compares with the built-in short-circuit inequality at line 1060, and
two wrong tokens of equal length are both rejected but take 1 versus 8
character comparisons, an unequal time for equal-length inputs. -/
theorem token_timing_counterexample :
    demoSess.token ≠ "baaaaaaa" ∧ demoSess.token ≠ "aaaaaaab" ∧
    ("baaaaaaa" : String).length = ("aaaaaaab" : String).length ∧
    (trackPing "POST" demoPingWrongTokFirst "UA" demoTrackStore 10).1 = .badToken ∧
    (trackPing "POST" demoPingWrongTokLast "UA" demoTrackStore 10).1 = .badToken ∧
    pingTokenCompareSteps demoSess "baaaaaaa" = 1 ∧
    pingTokenCompareSteps demoSess "aaaaaaab" = 8 := by
  decide

/-- C5 (amended): functionally, any supplied token differing from the
stored one — equal length included — is rejected with the wrong-token
error and no write; but the comparison is the built-in short-circuit
string inequality, whose step count is not a function of the token
lengths, while the constant-time comparison (`timingSafeEqualHex`,
used only on the webhook signature path) performs a step count
depending only on the byte lengths. -/
theorem token_validator_amended :
    (∀ (body : PingBody) (ua : String) (store : TrackStore) (now : Nat)
       (sess : SessionDoc),
       jsTrim (body.sid.getD "") ≠ "" →
       jsTrim (body.tok.getD "") ≠ "" →
       (jsNumber body.lat).isNaN = false →
       (jsNumber body.lng).isNaN = false →
       store.sessions.find?
         (fun s => s.sessionId == jsTrim (body.sid.getD "")) = some sess →
       sess.isActive = true →
       sess.token ≠ jsTrim (body.tok.getD "") →
       trackPing "POST" body ua store now = (.badToken, [])) ∧
    (∀ aa bb : List Nat, aa.length = bb.length →
       timingSafeEqualSteps aa bb = aa.length) ∧
    (∃ (sess : SessionDoc) (t1 t2 : String), t1.length = t2.length ∧
       sess.token ≠ t1 ∧ sess.token ≠ t2 ∧
       pingTokenCompareSteps sess t1 ≠ pingTokenCompareSteps sess t2) := by
  refine ⟨?_, ?_, ⟨demoSess, "baaaaaaa", "aaaaaaab", by decide, by decide,
    by decide, by decide⟩⟩
  · intro body ua store now sess hsid htok hlat hlng hfind hact htokne
    simp [trackPing, hsid, htok, hlat, hlng, hfind, hact, htokne]
  · intro aa bb h
    simp [timingSafeEqualSteps, h]

/-- C5 witness: the amended theorem's rejection branch applied to a
concrete wrong-token ping, and the constant-time step law at concrete
byte strings. -/
theorem token_validator_amended_witness :
    trackPing "POST" demoPingWrongTokLast "UA" demoTrackStore 10 =
      (.badToken, []) ∧
    timingSafeEqualSteps [1, 2, 3] [4, 5, 6] = 3 :=
  ⟨token_validator_amended.1 demoPingWrongTokLast "UA" demoTrackStore 10 demoSess
      (by decide) (by decide) (by decide) (by decide) (by decide) (by decide)
      (by decide),
   token_validator_amended.2.1 [1, 2, 3] [4, 5, 6] (by decide)⟩

/-- C10: with every earlier gate passed (session found, active, correct
token, valid fields), the ping returns the expired-session error exactly
when the parsed expiry is positive and strictly below the current time;
an expiry that parses to 0 (in particular an absent `expiresAt`) never
expires and the ping succeeds at any time. -/
theorem ping_expiry_guard (body : PingBody) (ua : String) (store : TrackStore)
    (now : Nat) (sess : SessionDoc)
    (hsid : jsTrim (body.sid.getD "") ≠ "")
    (htok : jsTrim (body.tok.getD "") ≠ "")
    (hlat : (jsNumber body.lat).isNaN = false)
    (hlng : (jsNumber body.lng).isNaN = false)
    (hfind : store.sessions.find?
      (fun s => s.sessionId == jsTrim (body.sid.getD "")) = some sess)
    (hact : sess.isActive = true)
    (htokeq : sess.token = jsTrim (body.tok.getD "")) :
    (((trackPing "POST" body ua store now).1 = .sessionExpired) ↔
      (0 < tsToMillis sess.expiresAt ∧ tsToMillis sess.expiresAt < now)) ∧
    (tsToMillis sess.expiresAt = 0 →
      (trackPing "POST" body ua store now).1 = .okPing) ∧
    tsToMillis TSValue.absent = 0 := by
  rw [trackPing_gates_eq body ua store now sess hsid htok hlat hlng hfind hact htokeq]
  by_cases hc : tsToMillis sess.expiresAt ≠ 0 ∧ now > tsToMillis sess.expiresAt
  · rw [if_pos hc]
    exact ⟨iff_of_true rfl (by omega), fun h0 => absurd h0 hc.1, rfl⟩
  · rw [if_neg hc]
    exact ⟨iff_of_false (by simp) (by omega), fun _ => rfl, rfl⟩

/-- C10 witness: the expiry-guard theorem applied to a concrete active
session pinged before its stored expiry. -/
theorem ping_expiry_guard_witness :
    (((trackPing "POST" demoPing "UA" demoTrackStore 10).1 = .sessionExpired) ↔
      (0 < tsToMillis demoSess.expiresAt ∧ tsToMillis demoSess.expiresAt < 10)) ∧
    (tsToMillis demoSess.expiresAt = 0 →
      (trackPing "POST" demoPing "UA" demoTrackStore 10).1 = .okPing) ∧
    tsToMillis TSValue.absent = 0 :=
  ping_expiry_guard demoPing "UA" demoTrackStore 10 demoSess (by decide)
    (by decide) (by decide) (by decide) (by decide) (by decide) (by decide)

/-- C6: a ping before the stored expiry with the correct token succeeds,
emitting exactly the history append followed by the snapshot merge — in
that order — so replaying the writes appends exactly one history record
and updates the student's last-location snapshot; the identical ping
after expiry fails with the expired-session error and emits no write. -/
theorem ping_lifecycle (body : PingBody) (ua : String) (store : TrackStore)
    (now1 now2 : Nat) (sess : SessionDoc)
    (hsid : jsTrim (body.sid.getD "") ≠ "")
    (htok : jsTrim (body.tok.getD "") ≠ "")
    (hlat : (jsNumber body.lat).isNaN = false)
    (hlng : (jsNumber body.lng).isNaN = false)
    (hfind : store.sessions.find?
      (fun s => s.sessionId == jsTrim (body.sid.getD "")) = some sess)
    (hact : sess.isActive = true)
    (htokeq : sess.token = jsTrim (body.tok.getD ""))
    (hbefore : now1 ≤ tsToMillis sess.expiresAt)
    (hpos : 0 < tsToMillis sess.expiresAt)
    (hafter : tsToMillis sess.expiresAt < now2) :
    trackPing "POST" body ua store now1 =
      (.okPing,
       [TrackOp.addLocation
          { sid := jsTrim (body.sid.getD ""), orgId := sess.orgId,
            studentId := sess.studentId, lat := jsNumber body.lat,
            lng := jsNumber body.lng, acc := jsNumberOrZero body.acc,
            createdAt := now1, ua := jsSlice ua 180 },
        TrackOp.mergeLastLocation sess.orgId sess.studentId
          { lat := jsNumber body.lat, lng := jsNumber body.lng,
            acc := jsNumberOrZero body.acc, sid := jsTrim (body.sid.getD ""),
            updatedAt := now1 }]) ∧
    (applyTrackOps store (trackPing "POST" body ua store now1).2).locations =
      store.locations ++
        [{ sid := jsTrim (body.sid.getD ""), orgId := sess.orgId,
           studentId := sess.studentId, lat := jsNumber body.lat,
           lng := jsNumber body.lng, acc := jsNumberOrZero body.acc,
           createdAt := now1, ua := jsSlice ua 180 }] ∧
    (applyTrackOps store (trackPing "POST" body ua store now1).2).students =
      updateFirst (fun d => d.orgId == sess.orgId && d.studentId == sess.studentId)
        (fun d => { d with lastLocation := some {
            lat := jsNumber body.lat, lng := jsNumber body.lng,
            acc := jsNumberOrZero body.acc, sid := jsTrim (body.sid.getD ""),
            updatedAt := now1 } }) store.students ∧
    trackPing "POST" body ua store now2 = (.sessionExpired, []) := by
  have hg1 := trackPing_gates_eq body ua store now1 sess hsid htok hlat hlng
    hfind hact htokeq
  have hg2 := trackPing_gates_eq body ua store now2 sess hsid htok hlat hlng
    hfind hact htokeq
  have hc1 : ¬(tsToMillis sess.expiresAt ≠ 0 ∧ now1 > tsToMillis sess.expiresAt) := by
    omega
  have hc2 : tsToMillis sess.expiresAt ≠ 0 ∧ now2 > tsToMillis sess.expiresAt := by
    omega
  rw [hg1, if_neg hc1, hg2, if_pos hc2]
  refine ⟨rfl, ?_, ?_, rfl⟩
  · simp [applyTrackOps, applyTrackOp]
  · simp [applyTrackOps, applyTrackOp]

/-- C6 witness: the lifecycle theorem applied to the demo session, pinged
at time 10 (before the expiry 1000) and at time 2000 (after it). -/
theorem ping_lifecycle_witness :
    trackPing "POST" demoPing "UA" demoTrackStore 10 =
      (.okPing,
       [TrackOp.addLocation
          { sid := jsTrim (demoPing.sid.getD ""), orgId := demoSess.orgId,
            studentId := demoSess.studentId, lat := jsNumber demoPing.lat,
            lng := jsNumber demoPing.lng, acc := jsNumberOrZero demoPing.acc,
            createdAt := 10, ua := jsSlice "UA" 180 },
        TrackOp.mergeLastLocation demoSess.orgId demoSess.studentId
          { lat := jsNumber demoPing.lat, lng := jsNumber demoPing.lng,
            acc := jsNumberOrZero demoPing.acc,
            sid := jsTrim (demoPing.sid.getD ""), updatedAt := 10 }]) ∧
    (applyTrackOps demoTrackStore (trackPing "POST" demoPing "UA" demoTrackStore 10).2).locations =
      demoTrackStore.locations ++
        [{ sid := jsTrim (demoPing.sid.getD ""), orgId := demoSess.orgId,
           studentId := demoSess.studentId, lat := jsNumber demoPing.lat,
           lng := jsNumber demoPing.lng, acc := jsNumberOrZero demoPing.acc,
           createdAt := 10, ua := jsSlice "UA" 180 }] ∧
    (applyTrackOps demoTrackStore (trackPing "POST" demoPing "UA" demoTrackStore 10).2).students =
      updateFirst (fun d => d.orgId == demoSess.orgId && d.studentId == demoSess.studentId)
        (fun d => { d with lastLocation := some {
            lat := jsNumber demoPing.lat, lng := jsNumber demoPing.lng,
            acc := jsNumberOrZero demoPing.acc,
            sid := jsTrim (demoPing.sid.getD ""), updatedAt := 10 } })
        demoTrackStore.students ∧
    trackPing "POST" demoPing "UA" demoTrackStore 2000 = (.sessionExpired, []) :=
  ping_lifecycle demoPing "UA" demoTrackStore 10 2000 demoSess (by decide)
    (by decide) (by decide) (by decide) (by decide) (by decide) (by decide)
    (by decide) (by decide) (by decide)

/-- C1: a first delivery of a referenced charge.success event past every
gate, with a matching user, emits exactly one ledger-record creation and
exactly one subscription-state mutation; replaying the identical request
against the updated store yields the 200 Duplicate outcome and no
further write. -/
theorem webhook_reference_idempotent (hmacHex : List Nat → String)
    (req : WebhookRequest) (store : Store) (now now2 : Nat) (sig r : String)
    (u : UserDoc)
    (hm : req.method = "POST")
    (hs : req.signature = some sig)
    (hv : timingSafeEqualHex (hmacHex (req.rawBody.getD req.jsonBodyBytes)) sig = true)
    (he : req.eventType = "charge.success")
    (hem : normalizeEmail req.customerEmail ≠ "")
    (hr : jsOrNull req.reference = some r)
    (hmiss : store.paystackEvents.any (fun p => p.1 == r) = false)
    (hu : store.users.find?
      (fun x => x.email == normalizeEmail req.customerEmail) = some u) :
    paystackWebhook hmacHex true req store now =
      (.ok,
       [WebhookOp.createProcessedRef r
          { createdAt := now, email := normalizeEmail req.customerEmail,
            amount := jsNumberOrZero req.amount },
        WebhookOp.setUserMerge (normalizeEmail req.customerEmail)
          (mkUpdates (classifyPlan req.metadataPlan (jsNumberOrZero req.amount)).1
            (classifyPlan req.metadataPlan (jsNumberOrZero req.amount)).2
            (some r) now)]) ∧
    ((paystackWebhook hmacHex true req store now).2.countP
      (fun op => op.isCreate) = 1) ∧
    ((paystackWebhook hmacHex true req store now).2.countP
      (fun op => op.isUserSet) = 1) ∧
    paystackWebhook hmacHex true req
      (applyWebhookOps store (paystackWebhook hmacHex true req store now).2) now2 =
      (.duplicate, []) := by
  have h1 : paystackWebhook hmacHex true req store now =
      (.ok,
       [WebhookOp.createProcessedRef r
          { createdAt := now, email := normalizeEmail req.customerEmail,
            amount := jsNumberOrZero req.amount },
        WebhookOp.setUserMerge (normalizeEmail req.customerEmail)
          (mkUpdates (classifyPlan req.metadataPlan (jsNumberOrZero req.amount)).1
            (classifyPlan req.metadataPlan (jsNumberOrZero req.amount)).2
            (some r) now)]) := by
    rw [paystackWebhook_gates_eq hmacHex req store now sig hm hs hv he hem, hr,
      webhookAfterGates_fresh r _ _ _ _ _ hmiss,
      projectPayment_found (some r) _ _ _ _ _ u hu]
  have hhit : (applyWebhookOps store
      (paystackWebhook hmacHex true req store now).2).paystackEvents.any
      (fun p => p.1 == r) = true := by
    rw [h1]
    simp [applyWebhookOps, applyWebhookOp]
  refine ⟨h1, ?_, ?_, ?_⟩
  · rw [h1]
    rfl
  · rw [h1]
    rfl
  · rw [paystackWebhook_gates_eq hmacHex req _ now2 sig hm hs hv he hem, hr,
      webhookAfterGates_dup r _ _ _ _ _ hhit]

/-- C1 witness: the idempotency theorem applied to a concrete monthly
payment, replayed at a later time. -/
theorem webhook_reference_idempotent_witness :
    ((paystackWebhook demoHmac true demoReq demoStore 5).2.countP
      (fun op => op.isCreate) = 1) ∧
    ((paystackWebhook demoHmac true demoReq demoStore 5).2.countP
      (fun op => op.isUserSet) = 1) ∧
    paystackWebhook demoHmac true demoReq
      (applyWebhookOps demoStore (paystackWebhook demoHmac true demoReq demoStore 5).2) 6 =
      (.duplicate, []) :=
  ⟨(webhook_reference_idempotent demoHmac demoReq demoStore 5 6 "ab" "R1" demoUser
      (by decide) (by decide) (by decide) (by decide) (by decide) (by decide)
      (by decide) (by decide)).2.1,
   (webhook_reference_idempotent demoHmac demoReq demoStore 5 6 "ab" "R1" demoUser
      (by decide) (by decide) (by decide) (by decide) (by decide) (by decide)
      (by decide) (by decide)).2.2.1,
   (webhook_reference_idempotent demoHmac demoReq demoStore 5 6 "ab" "R1" demoUser
      (by decide) (by decide) (by decide) (by decide) (by decide) (by decide)
      (by decide) (by decide)).2.2.2⟩

/-- A classification helper: with an absent or empty metadata plan and an
amount matching no price-table entry, the classifier yields pending. -/
theorem classifyPlan_unmatched (metadataPlan : Option String) (amount : NumVal)
    (hmeta : jsToLower (jsTrim (metadataPlan.getD "")) = "")
    (h1 : amount ≠ .int AMT_MONTHLY) (h2 : amount ≠ .int AMT_YEARLY)
    (h3 : amount ≠ .int AMT_LIFETIME) (h4 : amount ≠ .int AMT_COMMUNITY) :
    classifyPlan metadataPlan amount = ("pending", none) := by
  simp [classifyPlan, hmeta, h1, h2, h3, h4]

/-- The demo request with an amount matching no price-table entry. -/
def demoReqPending : WebhookRequest :=
  { method := "POST", signature := some "ab", rawBody := some [1, 2],
    jsonBodyBytes := [], eventType := "charge.success", reference := some "R9",
    customerEmail := some "A@x.com ", amount := .ofInt 777,
    metadataPlan := none }

/-- C4 counterexample: the claim asserts an accepted event with an
unmatched amount and no metadata plan leaves the user's expiry field
unchanged; processing such an event against a user whose stored expiry
is 999 sets plan pending and status inactive but overwrites the expiry
with null (and also nulls the trial), so the expiry is not left
unchanged. -/
theorem pending_clears_expiry_counterexample :
    demoUser.subscriptionEndsAt = some 999 ∧
    (paystackWebhook demoHmac true demoReqPending demoStore 5).1 = .ok ∧
    (applyWebhookOps demoStore
      (paystackWebhook demoHmac true demoReqPending demoStore 5).2).users.map
        (fun u => u.plan) = ["pending"] ∧
    (applyWebhookOps demoStore
      (paystackWebhook demoHmac true demoReqPending demoStore 5).2).users.map
        (fun u => u.status) = ["inactive"] ∧
    (applyWebhookOps demoStore
      (paystackWebhook demoHmac true demoReqPending demoStore 5).2).users.map
        (fun u => u.subscriptionEndsAt) = [none] := by
  decide

/-- C4 (amended): an accepted event whose amount matches no price-table
entry and which carries no metadata plan is projected as plan pending
and status inactive, with `subscriptionEndsAt` and `trialEndsAt`
overwritten with null — clearing any previously stored expiry — while
the merge preserves the user's email and other unmentioned fields. -/
theorem pending_projection (hmacHex : List Nat → String) (req : WebhookRequest)
    (store : Store) (now : Nat) (sig r : String) (u : UserDoc)
    (hm : req.method = "POST")
    (hs : req.signature = some sig)
    (hv : timingSafeEqualHex (hmacHex (req.rawBody.getD req.jsonBodyBytes)) sig = true)
    (he : req.eventType = "charge.success")
    (hem : normalizeEmail req.customerEmail ≠ "")
    (hr : jsOrNull req.reference = some r)
    (hmiss : store.paystackEvents.any (fun p => p.1 == r) = false)
    (hu : store.users.find?
      (fun x => x.email == normalizeEmail req.customerEmail) = some u)
    (hmeta : jsToLower (jsTrim (req.metadataPlan.getD "")) = "")
    (h1 : jsNumberOrZero req.amount ≠ .int AMT_MONTHLY)
    (h2 : jsNumberOrZero req.amount ≠ .int AMT_YEARLY)
    (h3 : jsNumberOrZero req.amount ≠ .int AMT_LIFETIME)
    (h4 : jsNumberOrZero req.amount ≠ .int AMT_COMMUNITY) :
    paystackWebhook hmacHex true req store now =
      (.ok,
       [WebhookOp.createProcessedRef r
          { createdAt := now, email := normalizeEmail req.customerEmail,
            amount := jsNumberOrZero req.amount },
        WebhookOp.setUserMerge (normalizeEmail req.customerEmail)
          (mkUpdates "pending" none (some r) now)]) ∧
    (applyWebhookOps store (paystackWebhook hmacHex true req store now).2).users =
      updateFirst (fun x => x.email == normalizeEmail req.customerEmail)
        (fun x => applyUpdatesToUser x (mkUpdates "pending" none (some r) now))
        store.users ∧
    (∀ x : UserDoc, applyUpdatesToUser x (mkUpdates "pending" none (some r) now) =
      ⟨x.email, x.name, "pending", "inactive", some r, now, none, none⟩) := by
  have hclass := classifyPlan_unmatched req.metadataPlan (jsNumberOrZero req.amount)
    hmeta h1 h2 h3 h4
  have h0 : paystackWebhook hmacHex true req store now =
      (.ok,
       [WebhookOp.createProcessedRef r
          { createdAt := now, email := normalizeEmail req.customerEmail,
            amount := jsNumberOrZero req.amount },
        WebhookOp.setUserMerge (normalizeEmail req.customerEmail)
          (mkUpdates "pending" none (some r) now)]) := by
    rw [paystackWebhook_gates_eq hmacHex req store now sig hm hs hv he hem, hr,
      webhookAfterGates_fresh r _ _ _ _ _ hmiss,
      projectPayment_found (some r) _ _ _ _ _ u hu, hclass]
  refine ⟨h0, ?_, ?_⟩
  · rw [h0]
    simp [applyWebhookOps, applyWebhookOp]
  · intro x
    rfl

/-- C4 witness: the pending-projection theorem applied to the concrete
unmatched-amount request against the demo store. -/
theorem pending_projection_witness :
    paystackWebhook demoHmac true demoReqPending demoStore 5 =
      (.ok,
       [WebhookOp.createProcessedRef "R9"
          { createdAt := 5, email := normalizeEmail demoReqPending.customerEmail,
            amount := jsNumberOrZero demoReqPending.amount },
        WebhookOp.setUserMerge (normalizeEmail demoReqPending.customerEmail)
          (mkUpdates "pending" none (some "R9") 5)]) ∧
    (applyWebhookOps demoStore
      (paystackWebhook demoHmac true demoReqPending demoStore 5).2).users =
      updateFirst (fun x => x.email == normalizeEmail demoReqPending.customerEmail)
        (fun x => applyUpdatesToUser x (mkUpdates "pending" none (some "R9") 5))
        demoStore.users ∧
    (∀ x : UserDoc, applyUpdatesToUser x (mkUpdates "pending" none (some "R9") 5) =
      ⟨x.email, x.name, "pending", "inactive", some "R9", 5, none, none⟩) :=
  pending_projection demoHmac demoReqPending demoStore 5 "ab" "R9" demoUser
    (by decide) (by decide) (by decide) (by decide) (by decide) (by decide)
    (by decide) (by decide) (by decide) (by decide) (by decide) (by decide)
    (by decide)

/-- A classification helper: every projection result past the gates is a
200-family response. -/
theorem webhookAfterGates_status (reference : Option String) (email : String)
    (amount : NumVal) (metadataPlan : Option String) (store : Store) (now : Nat) :
    webhookStatus
      (webhookAfterGates reference email amount metadataPlan store now).1 = 200 := by
  have hp : ∀ ref : Option String,
      webhookStatus (projectPayment ref email amount metadataPlan store now).1 = 200 := by
    intro ref
    rcases h : store.users.find? (fun u => u.email == email) with _ | u
    · simp [projectPayment, h, webhookStatus]
    · simp [projectPayment, h, webhookStatus]
  rcases reference with _ | r
  · simpa [webhookAfterGates] using hp none
  · by_cases hd : store.paystackEvents.any (fun p => p.1 == r) = true
    · simp [webhookAfterGates, hd, webhookStatus]
    · simp only [webhookAfterGates, if_neg hd]
      exact hp (some r)

/-- C8: past every gate on a fresh reference, the webhook emits exactly
one ledger creation; with no matching user it responds 200 "No matching
user" with zero subscription mutations, and with a matching user it
performs exactly one subscription mutation; moreover on every input
whatsoever the webhook emits at most one ledger creation and at most one
subscription mutation. -/
theorem webhook_accepts_once (hmacHex : List Nat → String)
    (req : WebhookRequest) (store : Store) (now : Nat) (sig r : String)
    (hm : req.method = "POST")
    (hs : req.signature = some sig)
    (hv : timingSafeEqualHex (hmacHex (req.rawBody.getD req.jsonBodyBytes)) sig = true)
    (he : req.eventType = "charge.success")
    (hem : normalizeEmail req.customerEmail ≠ "")
    (hr : jsOrNull req.reference = some r)
    (hmiss : store.paystackEvents.any (fun p => p.1 == r) = false) :
    ((paystackWebhook hmacHex true req store now).2.countP
      (fun op => op.isCreate) = 1) ∧
    (store.users.find?
        (fun x => x.email == normalizeEmail req.customerEmail) = none →
      paystackWebhook hmacHex true req store now =
        (.noMatchingUser,
         [WebhookOp.createProcessedRef r
            { createdAt := now, email := normalizeEmail req.customerEmail,
              amount := jsNumberOrZero req.amount }]) ∧
      webhookStatus
        (paystackWebhook hmacHex true req store now).1 = 200) ∧
    (∀ u : UserDoc, store.users.find?
        (fun x => x.email == normalizeEmail req.customerEmail) = some u →
      (paystackWebhook hmacHex true req store now).2.countP
        (fun op => op.isUserSet) = 1) ∧
    (∀ (hx : List Nat → String) (sp : Bool) (rq : WebhookRequest) (st : Store)
       (n : Nat),
      (paystackWebhook hx sp rq st n).2.countP (fun op => op.isCreate) ≤ 1 ∧
      (paystackWebhook hx sp rq st n).2.countP (fun op => op.isUserSet) ≤ 1) := by
  have hg : paystackWebhook hmacHex true req store now =
      ((projectPayment (some r) (normalizeEmail req.customerEmail)
          (jsNumberOrZero req.amount) req.metadataPlan store now).1,
       WebhookOp.createProcessedRef r
           { createdAt := now, email := normalizeEmail req.customerEmail,
             amount := jsNumberOrZero req.amount } ::
         (projectPayment (some r) (normalizeEmail req.customerEmail)
           (jsNumberOrZero req.amount) req.metadataPlan store now).2) := by
    rw [paystackWebhook_gates_eq hmacHex req store now sig hm hs hv he hem, hr,
      webhookAfterGates_fresh r _ _ _ _ _ hmiss]
  refine ⟨?_, ?_, ?_, ?_⟩
  · rw [hg]
    rcases h : store.users.find?
        (fun x => x.email == normalizeEmail req.customerEmail) with _ | u
    · rw [projectPayment_none _ _ _ _ _ _ h]
      rfl
    · rw [projectPayment_found _ _ _ _ _ _ u h]
      rfl
  · intro h
    rw [hg, projectPayment_none _ _ _ _ _ _ h]
    exact ⟨rfl, rfl⟩
  · intro u h
    rw [hg, projectPayment_found _ _ _ _ _ _ u h]
    rfl
  · intro hx sp rq st n
    rcases paystackWebhook_ops_cases hx sp rq st n with
      h | ⟨e, p, d, rf, h⟩ | ⟨r2, entry, h⟩ | ⟨r2, entry, e, p, d, rf, h⟩ <;>
      rw [h] <;> exact ⟨by simp [List.countP_cons, WebhookOp.isCreate, WebhookOp.isUserSet],
        by simp [List.countP_cons, WebhookOp.isCreate, WebhookOp.isUserSet]⟩

/-- C8 witness: the at-most-once theorem applied to the concrete monthly
payment, in the matching-user case. -/
theorem webhook_accepts_once_witness :
    ((paystackWebhook demoHmac true demoReq demoStore 5).2.countP
      (fun op => op.isCreate) = 1) ∧
    ((paystackWebhook demoHmac true demoReq demoStore 5).2.countP
      (fun op => op.isUserSet) = 1) :=
  ⟨(webhook_accepts_once demoHmac demoReq demoStore 5 "ab" "R1" (by decide)
      (by decide) (by decide) (by decide) (by decide) (by decide) (by decide)).1,
   (webhook_accepts_once demoHmac demoReq demoStore 5 "ab" "R1" (by decide)
      (by decide) (by decide) (by decide) (by decide) (by decide)
      (by decide)).2.2.1 demoUser (by decide)⟩

/-- The demo request with an amount string that Numbers to NaN. -/
def demoReqNanAmount : WebhookRequest :=
  { method := "POST", signature := some "ab", rawBody := some [1, 2],
    jsonBodyBytes := [], eventType := "charge.success", reference := some "R2",
    customerEmail := some "A@x.com ", amount := .nanString,
    metadataPlan := none }

/-- The demo ping with a latitude that Numbers to NaN. -/
def demoPingNanLat : PingBody :=
  { sid := some "S1", tok := some "aaaaaaaa", lat := .nanString,
    lng := .ofInt 2, acc := .ofInt 3 }

/-- The demo ping with an accuracy that Numbers to NaN. -/
def demoPingNanAcc : PingBody :=
  { sid := some "S1", tok := some "aaaaaaaa", lat := .ofInt 1,
    lng := .ofInt 2, acc := .nanString }

/-- C9 counterexample: the claim asserts every untrusted numeric field is
parsed fail-closed with NaN rejected before any store access; a webhook
whose amount parses to NaN is not rejected — it is answered 200 OK and
both stores are written, persisting the NaN amount in the ledger
record. -/
theorem nan_amount_counterexample :
    jsNumberOrZero demoReqNanAmount.amount = .nan ∧
    (paystackWebhook demoHmac true demoReqNanAmount demoStore 5).1 = .ok ∧
    webhookStatus (paystackWebhook demoHmac true demoReqNanAmount demoStore 5).1 = 200 ∧
    (paystackWebhook demoHmac true demoReqNanAmount demoStore 5).2 ≠ [] ∧
    (applyWebhookOps demoStore
      (paystackWebhook demoHmac true demoReqNanAmount demoStore 5).2).paystackEvents =
      [("R2", { createdAt := 5, email := "a@x.com", amount := NumVal.nan })] := by
  decide

/-- C9 (amended): the ping latitude and longitude are parsed fail-closed
— either of them NaN yields a 400 rejection before any write — but the
webhook amount and the ping accuracy are not: a NaN amount still
receives a 200-family response past the gates, a NaN accuracy is
accepted and stored as-is, and an absent amount is coerced to zero
rather than rejected. -/
theorem numeric_parsing_amended :
    (∀ (body : PingBody) (ua : String) (store : TrackStore) (now : Nat),
      jsTrim (body.sid.getD "") ≠ "" →
      jsTrim (body.tok.getD "") ≠ "" →
      ((jsNumber body.lat).isNaN = true ∨ (jsNumber body.lng).isNaN = true) →
      trackPing "POST" body ua store now = (.invalidLatLng, []) ∧
      pingStatus .invalidLatLng = 400) ∧
    (∀ (hmacHex : List Nat → String) (req : WebhookRequest) (store : Store)
       (now : Nat) (sig : String),
      req.method = "POST" → req.signature = some sig →
      timingSafeEqualHex (hmacHex (req.rawBody.getD req.jsonBodyBytes)) sig = true →
      req.eventType = "charge.success" → normalizeEmail req.customerEmail ≠ "" →
      req.amount = .nanString →
      webhookStatus (paystackWebhook hmacHex true req store now).1 = 200) ∧
    jsNumberOrZero .nanString = .nan ∧
    jsNumberOrZero .absent = .int 0 ∧
    (∀ (body : PingBody) (ua : String) (store : TrackStore) (now : Nat)
       (sess : SessionDoc),
      jsTrim (body.sid.getD "") ≠ "" →
      jsTrim (body.tok.getD "") ≠ "" →
      (jsNumber body.lat).isNaN = false →
      (jsNumber body.lng).isNaN = false →
      store.sessions.find?
        (fun s => s.sessionId == jsTrim (body.sid.getD "")) = some sess →
      sess.isActive = true →
      sess.token = jsTrim (body.tok.getD "") →
      ¬(tsToMillis sess.expiresAt ≠ 0 ∧ now > tsToMillis sess.expiresAt) →
      body.acc = .nanString →
      trackPing "POST" body ua store now =
        (.okPing,
         [TrackOp.addLocation
            { sid := jsTrim (body.sid.getD ""), orgId := sess.orgId,
              studentId := sess.studentId, lat := jsNumber body.lat,
              lng := jsNumber body.lng, acc := NumVal.nan,
              createdAt := now, ua := jsSlice ua 180 },
          TrackOp.mergeLastLocation sess.orgId sess.studentId
            { lat := jsNumber body.lat, lng := jsNumber body.lng,
              acc := NumVal.nan, sid := jsTrim (body.sid.getD ""),
              updatedAt := now }])) := by
  refine ⟨?_, ?_, rfl, rfl, ?_⟩
  · intro body ua store now hsid htok hnan
    rcases hnan with hnan | hnan
    · exact ⟨by simp [trackPing, hsid, htok, hnan], rfl⟩
    · exact ⟨by simp [trackPing, hsid, htok, hnan], rfl⟩
  · intro hmacHex req store now sig hm hs hv he hem hna
    rw [paystackWebhook_gates_eq hmacHex req store now sig hm hs hv he hem]
    exact webhookAfterGates_status _ _ _ _ _ _
  · intro body ua store now sess hsid htok hlat hlng hfind hact htokeq hnexp hacc
    rw [trackPing_gates_eq body ua store now sess hsid htok hlat hlng hfind
      hact htokeq, if_neg hnexp, hacc]
    rfl

/-- C9 witness: the amended theorem applied to a ping with NaN latitude,
a webhook with NaN amount, and a ping with NaN accuracy. -/
theorem numeric_parsing_amended_witness :
    (trackPing "POST" demoPingNanLat "UA" demoTrackStore 10 =
      (.invalidLatLng, []) ∧ pingStatus .invalidLatLng = 400) ∧
    webhookStatus (paystackWebhook demoHmac true demoReqNanAmount demoStore 7).1 = 200 ∧
    trackPing "POST" demoPingNanAcc "UA" demoTrackStore 10 =
      (.okPing,
       [TrackOp.addLocation
          { sid := jsTrim (demoPingNanAcc.sid.getD ""), orgId := demoSess.orgId,
            studentId := demoSess.studentId, lat := jsNumber demoPingNanAcc.lat,
            lng := jsNumber demoPingNanAcc.lng, acc := NumVal.nan,
            createdAt := 10, ua := jsSlice "UA" 180 },
        TrackOp.mergeLastLocation demoSess.orgId demoSess.studentId
          { lat := jsNumber demoPingNanAcc.lat, lng := jsNumber demoPingNanAcc.lng,
            acc := NumVal.nan, sid := jsTrim (demoPingNanAcc.sid.getD ""),
            updatedAt := 10 }]) :=
  ⟨numeric_parsing_amended.1 demoPingNanLat "UA" demoTrackStore 10 (by decide)
      (by decide) (by decide),
   numeric_parsing_amended.2.1 demoHmac demoReqNanAmount demoStore 7 "ab"
      (by decide) (by decide) (by decide) (by decide) (by decide) (by decide),
   numeric_parsing_amended.2.2.2.2 demoPingNanAcc "UA" demoTrackStore 10 demoSess
      (by decide) (by decide) (by decide) (by decide) (by decide) (by decide)
      (by decide) (by decide) (by decide)⟩

end KidobaboHub
